import Mathlib

/-!
Shallow embedding of `src/smithsonian_mcp_server/server.py` (the Smithsonian
MCP server): JSON values, the Python-style dynamic operations the code relies
on (`dict.get`, truthiness, slicing, iteration, `>` against `0`), the
credential resolver, the search-parameter builder, the three response
formatters and the tool dispatcher, followed by theorems settling the
specification claims.

Python exceptions are modelled as values of `PyError`; a function that can
raise returns `Except PyError _`.  JSON numbers are modelled as integers
(no claim depends on float behaviour).
-/

namespace Smithsonian

/-- A JSON value, as produced by `response.json()`.  Object fields keep
insertion order, as Python dicts do. -/
inductive Json where
  | null : Json
  | bool : Bool → Json
  | num : Int → Json
  | str : String → Json
  | arr : List Json → Json
  | obj : List (String × Json) → Json

/-- Python exceptions that the embedded code can raise. -/
inductive PyError where
  | attributeError : String → PyError
  | typeError : String → PyError
  | valueError : String → PyError
  | upstreamError : String → PyError

/-- Python `str(e)` for an exception: its message. -/
def PyError.message : PyError → String
  | .attributeError m => m
  | .typeError m => m
  | .valueError m => m
  | .upstreamError m => m

/-- First binding of a key in the field list of an object (Python dicts have
unique keys; association-list lookup models this). -/
def lookupField : List (String × Json) → String → Option Json
  | [], _ => none
  | (k, v) :: rest, key => if k = key then some v else lookupField rest key

def Json.isObj : Json → Bool
  | .obj _ => true
  | _ => false

def Json.isArr : Json → Bool
  | .arr _ => true
  | _ => false

def Json.isStr : Json → Bool
  | .str _ => true
  | _ => false

/-- Python `d.get(key, default)` on a value known to be a dict (used only under
`isinstance(d, dict)` guards); on a non-dict it returns the default, but
such uses never arise under the guards. -/
def Json.getD : Json → String → Json → Json
  | .obj fs, key, dflt => (lookupField fs key).getD dflt
  | _, _, dflt => dflt

/-- Python `x.get(key, default)` on an arbitrary value: raises `AttributeError`
unless `x` is a dict. -/
def Json.get : Json → String → Json → Except PyError Json
  | .obj fs, key, dflt => .ok ((lookupField fs key).getD dflt)
  | _, _, _ => .error (.attributeError "object has no attribute \x27get\x27")

/-- Python truthiness of a JSON value. -/
def Json.truthy : Json → Bool
  | .null => false
  | .bool b => b
  | .num n => n ≠ 0
  | .str s => s ≠ ""
  | .arr xs => !xs.isEmpty
  | .obj fs => !fs.isEmpty

mutual

/-- Python `repr` of a JSON value. -/
def pyRepr : Json → String
  | .null => "None"
  | .bool true => "True"
  | .bool false => "False"
  | .num n => toString n
  | .str s => "\x27" ++ s ++ "\x27"
  | .arr xs => "[" ++ pyReprElems xs ++ "]"
  | .obj fs => "\x7b" ++ pyReprFields fs ++ "\x7d"

def pyReprElems : List Json → String
  | [] => ""
  | [x] => pyRepr x
  | x :: rest => pyRepr x ++ ", " ++ pyReprElems rest

def pyReprFields : List (String × Json) → String
  | [] => ""
  | [(k, v)] => "\x27" ++ k ++ "\x27: " ++ pyRepr v
  | (k, v) :: rest => "\x27" ++ k ++ "\x27: " ++ pyRepr v ++ ", " ++ pyReprFields rest

end

/-- Python `str` of a JSON value, as used by f-string interpolation. -/
def pyStr : Json → String
  | .str s => s
  | j => pyRepr j

/-- Python slicing `x[:n]`: defined on lists and strings, `TypeError` otherwise. -/
def pySlice (j : Json) (n : Nat) : Except PyError Json :=
  match j with
  | .arr xs => .ok (.arr (xs.take n))
  | .str s => .ok (.str (s.take n))
  | _ => .error (.typeError "object is not subscriptable")

/-- Python iteration `for x in j`: lists yield elements, strings yield one-character strings,
dicts yield their keys; anything else raises `TypeError`. -/
def pyIter : Json → Except PyError (List Json)
  | .arr xs => .ok xs
  | .str s => .ok (s.toList.map fun c => .str (String.singleton c))
  | .obj fs => .ok (fs.map fun p => .str p.1)
  | _ => .error (.typeError "object is not iterable")

/-- Python comparison `x > 0`: defined for numbers (and bools, which are ints);
`TypeError` for other operand types. -/
def pyGtZero : Json → Except PyError Bool
  | .num n => .ok (decide (0 < n))
  | .bool b => .ok b
  | _ => .error (.typeError "comparison not supported between instances")

/-! ## Credential resolver (`get_api_key`) -/

/-- The module-level `DEFAULT_API_KEY = os.getenv("SMITHSONIAN_API_KEY", "")`, read at import
time.  The environment is a map from variable names to optional values and
cannot change during a run, so the import-time and call-time reads agree. -/
def DEFAULT_API_KEY (env : String → Option String) : String :=
  (env "SMITHSONIAN_API_KEY").getD ""

/-- The resolver `get_api_key`: re-reads `SMITHSONIAN_API_KEY` with `DEFAULT_API_KEY` as
default and raises `ValueError` with a remediation hint when the result is
falsy (empty). -/
def get_api_key (env : String → Option String) : Except PyError String :=
  let api_key := (env "SMITHSONIAN_API_KEY").getD (DEFAULT_API_KEY env)
  if api_key = "" then
    .error (.valueError ("SMITHSONIAN_API_KEY environment variable is required. " ++
      "Get your free API key at https://api.data.gov/signup/"))
  else
    .ok api_key

/-! ## HTTP adapter query parameters (`search_smithsonian`) -/

/-- The query-parameter dict that `search_smithsonian` sends to
`{base}/search`: built as `{api_key, q, rows: min(rows, 1000), start}` and
extended with `online_media_type = "Images"` when `online_media` is true. -/
def search_smithsonian_params (api_key query : String) (rows start : Int)
    (online_media : Bool) : List (String × Json) :=
  let params : List (String × Json) :=
    [("api_key", .str api_key), ("q", .str query),
     ("rows", .num (min rows 1000)), ("start", .num start)]
  if online_media then params ++ [("online_media_type", .str "Images")] else params

/-- Modelled from the words of the spec, for comparison with the code: "builds
query parameters `{api_key, q=query, rows=min(rows,1000), start}`; adds
`online_media_type=Images` only when onlineMedia is true". -/
def searchParamsSpec (api_key query : String) (rows start : Int)
    (online_media : Bool) : List (String × Json) :=
  [("api_key", .str api_key), ("q", .str query),
   ("rows", .num (min rows 1000)), ("start", .num start)]
  ++ (if online_media then [("online_media_type", .str "Images")] else [])

/-! ## `format_search_results` -/

/-- The lines one search row contributes (loop body of
`format_search_results`).  The second extraction of `online_media` chains
`.get` calls without `isinstance` guards, exactly as the source does, so a
non-dict `content` or `descriptiveNonRepeating` raises `AttributeError`. -/
def format_search_item (item : Json) : Except PyError (List String) := do
  let title ← item.get "title" (.str "Untitled")
  let item_id ← item.get "id" (.str "Unknown ID")
  let unit_code ← item.get "unitCode" (.str "")
  let baseLines := ["• " ++ pyStr title, "  ID: " ++ pyStr item_id]
  let unitLines := if unit_code.truthy then ["  Unit: " ++ pyStr unit_code] else []
  let content ← item.get "content" (.obj [])
  let linkLines :=
    if content.isObj then
      let desc := content.getD "descriptiveNonRepeating" (.obj [])
      if desc.isObj then
        let record_link := desc.getD "record_link" .null
        if record_link.truthy then ["  Link: " ++ pyStr record_link] else []
      else []
    else []
  let content2 ← item.get "content" (.obj [])
  let desc2 ← content2.get "descriptiveNonRepeating" (.obj [])
  let online_media ← desc2.get "online_media" (.obj [])
  let onlineMediaLines ←
    if online_media.truthy && online_media.isObj then do
      let media_count := online_media.getD "mediaCount" (.num 0)
      let pos ← pyGtZero media_count
      pure (if pos then ["  Online Media: " ++ pyStr media_count ++ " items available"] else [])
    else pure []
  return baseLines ++ unitLines ++ linkLines ++ onlineMediaLines ++ [""]

/-- Sequence the loop of `format_search_results` over the iterated rows. -/
def format_search_items : List Json → Except PyError (List String)
  | [] => .ok []
  | item :: rest => do
      let first ← format_search_item item
      let more ← format_search_items rest
      return first ++ more

/-- The formatter `format_search_results`, producing its `result_lines` list. -/
def format_search_results_lines (data : Json) : Except PyError (List String) := do
  let response ← data.get "response" (.obj [])
  let rows_returned ← response.get "rowCount" (.num 0)
  let total_rows ← response.get "rowCount" (.num 0)
  let header := ["Found " ++ pyStr total_rows ++ " results",
                 "Showing " ++ pyStr rows_returned ++ " items:", ""]
  let rowsVal ← response.get "rows" (.arr [])
  let items ← pyIter rowsVal
  let body ← format_search_items items
  return header ++ body

/-- The formatter `format_search_results`: joins `result_lines` with newlines. -/
def format_search_results (data : Json) : Except PyError String :=
  (format_search_results_lines data).map (String.intercalate "\n")

/-! ## `format_item_details` -/

/-- The line one entry of `online_media["media"][:5]` contributes: non-dict
entries are skipped by the `isinstance(media, dict)` check. -/
def media_entry_line (media : Json) : Option String :=
  if media.isObj then
    some ("  - " ++ pyStr (media.getD "type" (.str "Unknown")) ++ ": " ++
          pyStr (media.getD "content" (.str "")))
  else none

/-- The "Online Media:" section, entered when `online_media` is a truthy
dict.  Slicing `online_media.get("media", [])[:5]` raises `TypeError` when
the `media` value is neither a list nor a string. -/
def online_media_lines (online_media : Json) : Except PyError (List String) := do
  let media_count := online_media.getD "mediaCount" (.num 0)
  let header := ["", "Online Media:", "  Total Items: " ++ pyStr media_count]
  let sliced ← pySlice (online_media.getD "media" (.arr [])) 5
  let ms ← pyIter sliced
  return header ++ ms.filterMap media_entry_line

/-- The line one freetext entry contributes: dict entries render as
"label: content" when the label is truthy, bare content otherwise; non-dict
entries are skipped. -/
def freetext_entry_line (item : Json) : Option String :=
  if item.isObj then
    let label := item.getD "label" (.str "")
    let content_text := item.getD "content" (.str "")
    some (if label.truthy then "    " ++ pyStr label ++ ": " ++ pyStr content_text
          else "    " ++ pyStr content_text)
  else none

/-- The lines one freetext field contributes: only nonempty list values
produce output, and only the first 3 entries are shown. -/
def freetext_field_lines (key : String) (values : Json) : List String :=
  match values with
  | .arr vs =>
      if vs.isEmpty then []
      else ("  " ++ key ++ ":") :: (vs.take 3).filterMap freetext_entry_line
  | _ => []

/-- The loop over `freetext.items()`. -/
def freetext_lines : List (String × Json) → List String
  | [] => []
  | (k, v) :: rest => freetext_field_lines k v ++ freetext_lines rest

/-- The formatter `format_item_details`, producing its `result_lines` list. -/
def format_item_details_lines (data : Json) : Except PyError (List String) := do
  let response ← data.get "response" (.obj [])
  let title ← response.get "title" (.str "Untitled")
  let item_id ← response.get "id" (.str "Unknown")
  let unit_code ← response.get "unitCode" (.str "")
  let header := ["Item Details:", "", "Title: " ++ pyStr title, "ID: " ++ pyStr item_id]
    ++ (if unit_code.truthy then ["Unit: " ++ pyStr unit_code] else []) ++ [""]
  let content ← response.get "content" (.obj [])
  if content.isObj then do
    let desc := content.getD "descriptiveNonRepeating" (.obj [])
    let descLines ←
      if desc.isObj then do
        let record_link := desc.getD "record_link" .null
        let linkLines := if record_link.truthy then ["Record Link: " ++ pyStr record_link] else []
        let data_source := desc.getD "data_source" .null
        let sourceLines := if data_source.truthy then ["Data Source: " ++ pyStr data_source] else []
        let online_media := desc.getD "online_media" (.obj [])
        let omLines ←
          if online_media.truthy && online_media.isObj then online_media_lines online_media
          else pure []
        pure (linkLines ++ sourceLines ++ omLines)
      else pure []
    let freetext := content.getD "freetext" (.obj [])
    let ftLines :=
      match freetext with
      | .obj fs => ["", "Additional Information:"] ++ freetext_lines fs
      | _ => []
    return header ++ descLines ++ ftLines
  else
    return header

/-- The formatter `format_item_details`: joins `result_lines` with newlines. -/
def format_item_details (data : Json) : Except PyError String :=
  (format_item_details_lines data).map (String.intercalate "\n")

/-! ## Category-terms formatting (inline in `call_tool`) -/

/-- The inline formatting block of the `get_category_terms` branch of
`call_tool`: header naming the category, blank line, one bullet per term. -/
def format_category_terms_lines (category data : Json) : Except PyError (List String) := do
  let response ← data.get "response" (.obj [])
  let termsVal ← response.get "terms" (.arr [])
  let terms ← pyIter termsVal
  return ("Available terms for \x27" ++ pyStr category ++ "\x27:") :: "" ::
    terms.map (fun t => "• " ++ pyStr t)

/-- The text of the `get_category_terms` branch. -/
def format_category_terms (category data : Json) : Except PyError String :=
  (format_category_terms_lines category data).map (String.intercalate "\n")

/-! ## Tool dispatcher (`call_tool`) -/

/-- A `TextContent(type="text", text=...)` block. -/
structure TextContent where
  type : String
  text : String

/-- An invocation of one of the three adapter operations, with the argument
values passed from `call_tool` (each such invocation opens a network
request, except that a missing credential raises before any HTTP call). -/
inductive AdapterCall where
  | search : Json → Json → Json → Json → AdapterCall
  | getItem : Json → AdapterCall
  | categoryTerms : Json → Json → AdapterCall

/-- What each adapter operation would produce if invoked: a parsed JSON
response, or a raised exception (missing credential, upstream failure,
timeout, …). -/
structure AdapterStub where
  searchResult : Except PyError Json
  itemResult : Except PyError Json
  termsResult : Except PyError Json

/-- Outcome of the `try` body of `call_tool`, together with the adapter
invocations it performed. -/
structure Dispatch where
  result : Except PyError (List TextContent)
  calls : List AdapterCall

/-- The `try` body of `call_tool`: argument extraction, required-argument
checks, adapter invocation, formatting.  Raised exceptions surface in
`result` and are converted by `call_tool` below. -/
def call_tool_inner (stub : AdapterStub) (name : String) (arguments : Json) : Dispatch :=
  if name = "search_collection" then
    match (do
        let query ← arguments.get "query" .null
        let rows ← arguments.get "rows" (.num 10)
        let startVal ← arguments.get "start" (.num 0)
        let online_media_only ← arguments.get "online_media_only" (.bool false)
        pure (query, rows, startVal, online_media_only) :
          Except PyError (Json × Json × Json × Json)) with
    | .error e => ⟨.error e, []⟩
    | .ok (query, rows, startVal, online_media_only) =>
      if !query.truthy then
        ⟨.ok [⟨"text", "Error: query parameter is required"⟩], []⟩
      else
        let call := AdapterCall.search query rows startVal online_media_only
        match stub.searchResult with
        | .error e => ⟨.error e, [call]⟩
        | .ok data =>
          match format_search_results data with
          | .error e => ⟨.error e, [call]⟩
          | .ok s => ⟨.ok [⟨"text", s⟩], [call]⟩
  else if name = "get_item" then
    match arguments.get "item_id" .null with
    | .error e => ⟨.error e, []⟩
    | .ok item_id =>
      if !item_id.truthy then
        ⟨.ok [⟨"text", "Error: item_id parameter is required"⟩], []⟩
      else
        let call := AdapterCall.getItem item_id
        match stub.itemResult with
        | .error e => ⟨.error e, [call]⟩
        | .ok data =>
          match format_item_details data with
          | .error e => ⟨.error e, [call]⟩
          | .ok s => ⟨.ok [⟨"text", s⟩], [call]⟩
  else if name = "get_category_terms" then
    match (do
        let category ← arguments.get "category" .null
        let starts_with ← arguments.get "starts_with" (.str "")
        pure (category, starts_with) : Except PyError (Json × Json)) with
    | .error e => ⟨.error e, []⟩
    | .ok (category, starts_with) =>
      if !category.truthy then
        ⟨.ok [⟨"text", "Error: category parameter is required"⟩], []⟩
      else
        let call := AdapterCall.categoryTerms category starts_with
        match stub.termsResult with
        | .error e => ⟨.error e, [call]⟩
        | .ok data =>
          match format_category_terms category data with
          | .error e => ⟨.error e, [call]⟩
          | .ok s => ⟨.ok [⟨"text", s⟩], [call]⟩
  else
    ⟨.ok [⟨"text", "Error: Unknown tool \x27" ++ name ++ "\x27"⟩], []⟩

/-- The dispatcher `call_tool`: the `try`/`except Exception` wrapper.  Every raised
exception is converted to a single `"Error: {message}"` text block, so the
function is total — no exception escapes to the transport host. -/
def call_tool (stub : AdapterStub) (name : String) (arguments : Json) :
    List TextContent × List AdapterCall :=
  let d := call_tool_inner stub name arguments
  match d.result with
  | .ok blocks => (blocks, d.calls)
  | .error e => ([⟨"text", "Error: " ++ e.message⟩], d.calls)

/-! ## Shape predicates

Sufficient conditions on a response under which each formatter provably
returns a string: every *present* field that the formatter accesses without
an `isinstance` guard has the shape the code expects.  Absent fields are
always fine — the defaults are well-shaped. -/

def isNumOrBool : Json → Bool
  | .num _ => true
  | .bool _ => true
  | _ => false

def sliceable : Json → Bool
  | .arr _ => true
  | .str _ => true
  | _ => false

def iterable : Json → Bool
  | .arr _ => true
  | .str _ => true
  | .obj _ => true
  | _ => false

/-- Shape condition for one search row: the row is a dict, its `content`
and `descriptiveNonRepeating` are dicts (the unguarded `.get` chain needs
them), and when `online_media` is a truthy dict its `mediaCount` supports
`> 0`. -/
def search_item_wf (item : Json) : Bool :=
  item.isObj &&
  (let content := item.getD "content" (.obj [])
   content.isObj &&
   (let desc := content.getD "descriptiveNonRepeating" (.obj [])
    desc.isObj &&
    (let om := desc.getD "online_media" (.obj [])
     !(om.truthy && om.isObj) || isNumOrBool (om.getD "mediaCount" (.num 0)))))

/-- Shape condition for a whole search response. -/
def search_wf (data : Json) : Bool :=
  data.isObj &&
  (let response := data.getD "response" (.obj [])
   response.isObj &&
   (match response.getD "rows" (.arr []) with
    | .arr items => items.all search_item_wf
    | _ => false))

/-- Shape condition for an item-details response: the only unguarded
operation is slicing `online_media["media"][:5]`. -/
def item_wf (data : Json) : Bool :=
  data.isObj &&
  (let response := data.getD "response" (.obj [])
   response.isObj &&
   (let content := response.getD "content" (.obj [])
    !content.isObj ||
    (let desc := content.getD "descriptiveNonRepeating" (.obj [])
     !desc.isObj ||
     (let om := desc.getD "online_media" (.obj [])
      !(om.truthy && om.isObj) || sliceable (om.getD "media" (.arr []))))))

/-- Shape condition for a category-terms response. -/
def terms_wf (data : Json) : Bool :=
  data.isObj &&
  (let response := data.getD "response" (.obj [])
   response.isObj && iterable (response.getD "terms" (.arr [])))

/-! ## Helper lemmas -/

@[simp] theorem ok_bind {α β : Type} (a : α) (f : α → Except PyError β) :
    (Except.ok a : Except PyError α) >>= f = f a := rfl

@[simp] theorem error_bind {α β : Type} (e : PyError) (f : α → Except PyError β) :
    (Except.error e : Except PyError α) >>= f = Except.error e := rfl

@[simp] theorem pure_eq_ok {α : Type} (a : α) :
    (pure a : Except PyError α) = .ok a := rfl

@[simp] theorem map_ok {α β : Type} (f : α → β) (a : α) :
    (Except.ok a : Except PyError α).map f = .ok (f a) := rfl

@[simp] theorem map_error {α β : Type} (f : α → β) (e : PyError) :
    (Except.error e : Except PyError α).map f = .error e := rfl

theorem Json.get_eq_ok {j : Json} (h : j.isObj = true) (key : String) (dflt : Json) :
    j.get key dflt = .ok (j.getD key dflt) := by
  cases j <;> simp_all [Json.isObj, Json.get, Json.getD]

theorem Json.getD_of_not_isObj {j : Json} (h : j.isObj = false) (key : String)
    (dflt : Json) : j.getD key dflt = dflt := by
  cases j <;> simp_all [Json.isObj, Json.getD]

theorem bind_eq_ok {α β : Type} {e : Except PyError α} {f : α → Except PyError β} {b : β}
    (h : e >>= f = .ok b) : ∃ a, e = .ok a ∧ f a = .ok b := by
  cases e with
  | ok a => exact ⟨a, rfl, h⟩
  | error err => simp at h

theorem pyGtZero_eq_ok {j : Json} (h : isNumOrBool j = true) :
    ∃ b, pyGtZero j = .ok b := by
  cases j <;> simp_all [isNumOrBool, pyGtZero]

theorem pyIter_eq_ok {j : Json} (h : iterable j = true) :
    ∃ xs, pyIter j = .ok xs := by
  cases j <;> simp_all [iterable, pyIter]

theorem online_media_lines_eq_ok {om : Json}
    (h : sliceable (om.getD "media" (.arr [])) = true) :
    ∃ ls, online_media_lines om = .ok ls := by
  unfold online_media_lines
  rcases hm : om.getD "media" (.arr []) with _ | b | n | s | xs | fs <;>
    rw [hm] at h <;> simp_all [sliceable, pySlice, pyIter]

theorem format_search_item_eq_ok {item : Json} (h : search_item_wf item = true) :
    ∃ ls, format_search_item item = .ok ls := by
  obtain ⟨fs, rfl⟩ : ∃ fs, item = Json.obj fs := by
    cases item <;> simp_all [search_item_wf, Json.isObj]
  simp only [search_item_wf, Json.isObj, Bool.true_and, Bool.and_eq_true] at h
  obtain ⟨hc, hd, hom⟩ := h
  unfold format_search_item
  simp only [Json.get_eq_ok (show (Json.obj fs).isObj = true from rfl), ok_bind]
  simp only [Json.get_eq_ok hc, ok_bind]
  simp only [Json.get_eq_ok hd, ok_bind]
  set om := (((Json.obj fs).getD "content" (Json.obj [])).getD "descriptiveNonRepeating"
      (Json.obj [])).getD "online_media" (Json.obj []) with hom_def
  cases hcond : om.truthy && om.isObj with
  | false => simp
  | true =>
    have hom' : (!(om.truthy && om.isObj) ||
        isNumOrBool (om.getD "mediaCount" (Json.num 0))) = true := hom
    rw [hcond] at hom'
    simp only [Bool.not_true, Bool.false_or] at hom'
    obtain ⟨b, hb⟩ := pyGtZero_eq_ok hom'
    simp [hb]

theorem format_search_items_eq_ok {items : List Json}
    (h : items.all search_item_wf = true) :
    ∃ ls, format_search_items items = .ok ls := by
  induction items with
  | nil => exact ⟨[], rfl⟩
  | cons item rest ih =>
    simp only [List.all_cons, Bool.and_eq_true] at h
    obtain ⟨l1, h1⟩ := format_search_item_eq_ok h.1
    obtain ⟨l2, h2⟩ := ih h.2
    exact ⟨l1 ++ l2, by simp [format_search_items, h1, h2]⟩

theorem format_search_results_eq_ok {data : Json} (h : search_wf data = true) :
    ∃ s, format_search_results data = .ok s := by
  obtain ⟨fs, rfl⟩ : ∃ fs, data = Json.obj fs := by
    cases data <;> simp_all [search_wf, Json.isObj]
  simp only [search_wf, Json.isObj, Bool.true_and, Bool.and_eq_true] at h
  obtain ⟨hresp, hrows⟩ := h
  unfold format_search_results format_search_results_lines
  simp only [Json.get_eq_ok (show (Json.obj fs).isObj = true from rfl), ok_bind]
  simp only [Json.get_eq_ok hresp, ok_bind]
  rcases hr : ((Json.obj fs).getD "response" (Json.obj [])).getD "rows" (Json.arr [])
      with _ | b | n | s | items | gs <;> rw [hr] at hrows
  · simp at hrows
  · simp at hrows
  · simp at hrows
  · simp at hrows
  · obtain ⟨body, hbody⟩ := format_search_items_eq_ok hrows
    simp [pyIter, hbody]
  · simp at hrows

theorem format_item_details_eq_ok {data : Json} (h : item_wf data = true) :
    ∃ s, format_item_details data = .ok s := by
  obtain ⟨fs, rfl⟩ : ∃ fs, data = Json.obj fs := by
    cases data <;> simp_all [item_wf, Json.isObj]
  simp only [item_wf, Json.isObj, Bool.true_and, Bool.and_eq_true] at h
  obtain ⟨hresp, hrest⟩ := h
  unfold format_item_details format_item_details_lines
  simp only [Json.get_eq_ok (show (Json.obj fs).isObj = true from rfl), ok_bind]
  simp only [Json.get_eq_ok hresp, ok_bind]
  set response := (Json.obj fs).getD "response" (Json.obj []) with hr_def
  set content := response.getD "content" (Json.obj []) with hc_def
  set desc := content.getD "descriptiveNonRepeating" (Json.obj []) with hd_def
  set om := desc.getD "online_media" (Json.obj []) with ho_def
  have hrest' : (!content.isObj || (!desc.isObj ||
      (!(om.truthy && om.isObj) || sliceable (om.getD "media" (Json.arr []))))) = true := hrest
  cases hco : content.isObj with
  | false => simp
  | true =>
    rw [hco] at hrest'
    simp only [Bool.not_true, Bool.false_or] at hrest'
    cases hdo : desc.isObj with
    | false => simp
    | true =>
      rw [hdo] at hrest'
      simp only [Bool.not_true, Bool.false_or] at hrest'
      cases homc : om.truthy && om.isObj with
      | false => simp
      | true =>
        rw [homc] at hrest'
        simp only [Bool.not_true, Bool.false_or] at hrest'
        obtain ⟨ls, hls⟩ := online_media_lines_eq_ok hrest'
        simp [hls]

theorem format_category_terms_eq_ok {data : Json} (category : Json)
    (h : terms_wf data = true) :
    ∃ s, format_category_terms category data = .ok s := by
  obtain ⟨fs, rfl⟩ : ∃ fs, data = Json.obj fs := by
    cases data <;> simp_all [terms_wf, Json.isObj]
  simp only [terms_wf, Json.isObj, Bool.true_and, Bool.and_eq_true] at h
  obtain ⟨hresp, hterms⟩ := h
  unfold format_category_terms format_category_terms_lines
  simp only [Json.get_eq_ok (show (Json.obj fs).isObj = true from rfl), ok_bind]
  simp only [Json.get_eq_ok hresp, ok_bind]
  obtain ⟨xs, hxs⟩ := pyIter_eq_ok hterms
  simp [hxs]

/-! ## Claim theorems -/

/-- C3: the outgoing query parameters of the search adapter are exactly
`{api_key, q=query, rows=min(rows,1000), start}`, with
`online_media_type=Images` present if and only if the onlineMedia flag is
true; in particular a `rows` argument of 5000 is sent upstream as 1000. -/
theorem search_params_spec_conformance :
    (∀ (api_key query : String) (rows startVal : Int) (online_media : Bool),
        search_smithsonian_params api_key query rows startVal online_media
          = searchParamsSpec api_key query rows startVal online_media) ∧
    (∀ (api_key query : String) (rows startVal : Int) (online_media : Bool),
        (("online_media_type", Json.str "Images") ∈
            search_smithsonian_params api_key query rows startVal online_media
          ↔ online_media = true)) ∧
    (∀ (api_key query : String) (startVal : Int) (online_media : Bool),
        lookupField (search_smithsonian_params api_key query 5000 startVal online_media)
            "rows" = some (Json.num 1000)) := by
  refine ⟨fun k q r s om => ?_, fun k q r s om => ?_, fun k q s om => ?_⟩
  · cases om <;> simp [search_smithsonian_params, searchParamsSpec]
  · cases om <;> simp [search_smithsonian_params]
  · cases om <;> simp [search_smithsonian_params, lookupField]

/-- C5: for every name other than the three declared tool names, and every
argument value, `call_tool` returns the single text block
the text block "Error: Unknown tool {name}" (with the name in single quotes) and performs no adapter call. -/
theorem unknown_tool_error (stub : AdapterStub) (name : String) (args : Json)
    (h1 : ¬ name = "search_collection") (h2 : ¬ name = "get_item")
    (h3 : ¬ name = "get_category_terms") :
    call_tool stub name args
      = ([⟨"text", "Error: Unknown tool \x27" ++ name ++ "\x27"⟩], []) := by
  simp [call_tool, call_tool_inner, h1, h2, h3]

theorem unknown_tool_error_witness :
    call_tool ⟨.ok .null, .ok .null, .ok .null⟩ "anything_else" (.obj [])
      = ([⟨"text", "Error: Unknown tool \x27" ++ "anything_else" ++ "\x27"⟩], []) :=
  unknown_tool_error ⟨.ok .null, .ok .null, .ok .null⟩ "anything_else" (.obj [])
    (by decide) (by decide) (by decide)

/-- C6: `get_api_key` reads `SMITHSONIAN_API_KEY` and fails with an error
whose message carries the remediation hint (the sign-up URL) exactly when
the variable is unset or empty; otherwise it returns the value. -/
theorem api_key_resolution (env : String → Option String) :
    ((env "SMITHSONIAN_API_KEY" = none ∨ env "SMITHSONIAN_API_KEY" = some "") →
      ∃ pre post, get_api_key env
        = .error (.valueError (pre ++ "https://api.data.gov/signup/" ++ post))) ∧
    (∀ v, env "SMITHSONIAN_API_KEY" = some v → ¬ v = "" → get_api_key env = .ok v) := by
  constructor
  · intro h
    refine ⟨"SMITHSONIAN_API_KEY environment variable is required. " ++
      "Get your free API key at ", "", ?_⟩
    rcases h with h | h <;> simp [get_api_key, DEFAULT_API_KEY, h]
  · intro v hv hne
    simp [get_api_key, DEFAULT_API_KEY, hv, hne]

theorem api_key_resolution_witness :
    (∃ pre post, get_api_key (fun _ => none)
      = .error (.valueError (pre ++ "https://api.data.gov/signup/" ++ post))) ∧
    get_api_key (fun _ => some "DEMO_KEY") = .ok "DEMO_KEY" :=
  ⟨(api_key_resolution (fun _ => none)).1 (Or.inl rfl),
   (api_key_resolution (fun _ => some "DEMO_KEY")).2 "DEMO_KEY" rfl (by decide)⟩

/-- C2: every exception raised inside the `try` body of `call_tool`
(adapter invocation included) is caught and converted to the single text
block "Error: {message}"; `call_tool` itself is total, so no exception
escapes to the transport host.  In particular an `UpstreamError` raised by
the item adapter surfaces as a text block "Error: {reason}". -/
theorem call_tool_error_conversion :
    (∀ (stub : AdapterStub) (name : String) (args : Json) (e : PyError),
        (call_tool_inner stub name args).result = .error e →
        (call_tool stub name args).1 = [⟨"text", "Error: " ++ e.message⟩]) ∧
    (∀ (sr tr : Except PyError Json) (m id_ : String), ¬ id_ = "" →
        (call_tool ⟨sr, .error (.upstreamError m), tr⟩ "get_item"
            (.obj [("item_id", .str id_)])).1
          = [⟨"text", "Error: " ++ m⟩]) := by
  constructor
  · intro stub name args e h
    simp [call_tool, h]
  · intro sr tr m id_ h
    simp [call_tool, call_tool_inner, Json.get, lookupField, Json.truthy, h, PyError.message]

theorem call_tool_error_conversion_witness :
    (call_tool ⟨.ok .null, .error (.valueError "boom"), .ok .null⟩ "get_item"
        (.obj [("item_id", .str "X")])).1
      = [⟨"text", "Error: " ++ PyError.message (.valueError "boom")⟩] ∧
    (call_tool ⟨.ok .null, .error (.upstreamError "504 upstream timeout"), .ok .null⟩
        "get_item" (.obj [("item_id", .str "X")])).1
      = [⟨"text", "Error: " ++ "504 upstream timeout"⟩] :=
  ⟨call_tool_error_conversion.1 ⟨.ok .null, .error (.valueError "boom"), .ok .null⟩
      "get_item" (.obj [("item_id", .str "X")]) (.valueError "boom") rfl,
   call_tool_error_conversion.2 (.ok .null) (.ok .null) "504 upstream timeout" "X" (by decide)⟩

/-- C4: a known tool whose required argument is absent from the argument
map returns a single text block naming the missing parameter, raises
nothing, and performs no adapter (hence no network) call. -/
theorem missing_required_argument (stub : AdapterStub) (fields : List (String × Json)) :
    (lookupField fields "query" = none →
      call_tool stub "search_collection" (.obj fields)
        = ([⟨"text", "Error: query parameter is required"⟩], [])) ∧
    (lookupField fields "item_id" = none →
      call_tool stub "get_item" (.obj fields)
        = ([⟨"text", "Error: item_id parameter is required"⟩], [])) ∧
    (lookupField fields "category" = none →
      call_tool stub "get_category_terms" (.obj fields)
        = ([⟨"text", "Error: category parameter is required"⟩], [])) := by
  refine ⟨fun h => ?_, fun h => ?_, fun h => ?_⟩ <;>
    simp [call_tool, call_tool_inner, Json.get, h, Json.truthy]

theorem missing_required_argument_witness :
    call_tool ⟨.ok .null, .ok .null, .ok .null⟩ "search_collection" (.obj [])
      = ([⟨"text", "Error: query parameter is required"⟩], []) ∧
    call_tool ⟨.ok .null, .ok .null, .ok .null⟩ "get_item" (.obj [])
      = ([⟨"text", "Error: item_id parameter is required"⟩], []) ∧
    call_tool ⟨.ok .null, .ok .null, .ok .null⟩ "get_category_terms" (.obj [])
      = ([⟨"text", "Error: category parameter is required"⟩], []) :=
  ⟨(missing_required_argument ⟨.ok .null, .ok .null, .ok .null⟩ []).1 rfl,
   (missing_required_argument ⟨.ok .null, .ok .null, .ok .null⟩ []).2.1 rfl,
   (missing_required_argument ⟨.ok .null, .ok .null, .ok .null⟩ []).2.2 rfl⟩

/-- C10: a required argument that is present but falsy (empty string,
`False`, `0`, …) is treated exactly like an absent one: the
"parameter is required" block is returned and no adapter call is made. -/
theorem falsy_required_argument (stub : AdapterStub) (fields : List (String × Json)) :
    (∀ v, lookupField fields "query" = some v → v.truthy = false →
      call_tool stub "search_collection" (.obj fields)
        = ([⟨"text", "Error: query parameter is required"⟩], [])) ∧
    (∀ v, lookupField fields "item_id" = some v → v.truthy = false →
      call_tool stub "get_item" (.obj fields)
        = ([⟨"text", "Error: item_id parameter is required"⟩], [])) ∧
    (∀ v, lookupField fields "category" = some v → v.truthy = false →
      call_tool stub "get_category_terms" (.obj fields)
        = ([⟨"text", "Error: category parameter is required"⟩], [])) := by
  refine ⟨fun v hv ht => ?_, fun v hv ht => ?_, fun v hv ht => ?_⟩ <;>
    simp [call_tool, call_tool_inner, Json.get, hv, ht]

theorem falsy_required_argument_witness :
    call_tool ⟨.ok .null, .ok .null, .ok .null⟩ "search_collection"
        (.obj [("query", .str "")])
      = ([⟨"text", "Error: query parameter is required"⟩], []) ∧
    call_tool ⟨.ok .null, .ok .null, .ok .null⟩ "get_item"
        (.obj [("item_id", .bool false)])
      = ([⟨"text", "Error: item_id parameter is required"⟩], []) ∧
    call_tool ⟨.ok .null, .ok .null, .ok .null⟩ "get_category_terms"
        (.obj [("category", .num 0)])
      = ([⟨"text", "Error: category parameter is required"⟩], []) :=
  ⟨(falsy_required_argument ⟨.ok .null, .ok .null, .ok .null⟩ _).1 (.str "") rfl rfl,
   (falsy_required_argument ⟨.ok .null, .ok .null, .ok .null⟩ _).2.1 (.bool false) rfl rfl,
   (falsy_required_argument ⟨.ok .null, .ok .null, .ok .null⟩ _).2.2 (.num 0) rfl rfl⟩

/-- Bool test for "line `l` begins with `p`", used to count emitted lines
of a given kind. -/
def startsWithStr (p l : String) : Bool := decide (l.toList.take p.length = p.toList)

/-- C1 counterexample: a search row whose `content` field is a string
(present but of unexpected shape): the unguarded `.get` chain of
`format_search_results` raises `AttributeError` instead of returning a
string, so the formatters do not tolerate every wrong-shaped field. -/
theorem format_search_results_raises_on_wrong_shape :
    format_search_results (Json.obj [("response", Json.obj [("rows",
        Json.arr [Json.obj [("content", Json.str "oops")]])])])
      = .error (.attributeError "object has no attribute \x27get\x27") := rfl

/-- C1 (amended): each formatter returns a string and never raises on every
JSON input in which any subset of expected fields may be absent, provided
each *present* accessed field has the expected shape (`search_wf`,
`item_wf`, `terms_wf`); a present field of wrong shape can make a formatter
raise (see the counterexample). -/
theorem formatters_total_on_shaped (d1 d2 d3 category : Json)
    (h1 : search_wf d1 = true) (h2 : item_wf d2 = true) (h3 : terms_wf d3 = true) :
    (∃ s, format_search_results d1 = .ok s) ∧
    (∃ s, format_item_details d2 = .ok s) ∧
    (∃ s, format_category_terms category d3 = .ok s) :=
  ⟨format_search_results_eq_ok h1, format_item_details_eq_ok h2,
   format_category_terms_eq_ok category h3⟩

theorem formatters_total_on_shaped_witness :
    (∃ s, format_search_results (.obj []) = .ok s) ∧
    (∃ s, format_item_details (.obj []) = .ok s) ∧
    (∃ s, format_category_terms (.str "topic") (.obj []) = .ok s) :=
  formatters_total_on_shaped (.obj []) (.obj []) (.obj []) (.str "topic") rfl rfl rfl

/-- C9: both header counts of `format_search_results` come from the same
`rowCount` field: whenever the formatter succeeds, its first two lines are
"Found {n} results" and "Showing {n} items:" with the same `n` — and the
"Showing" count can differ from the number of rows actually listed, as the
concrete response with `rowCount=3` but a single row shows. -/
theorem search_header_counts :
    (∀ (data : Json) (lines : List String),
        format_search_results_lines data = .ok lines →
        ∃ n, lines.take 2 = ["Found " ++ n ++ " results", "Showing " ++ n ++ " items:"]) ∧
    (format_search_results_lines (.obj [("response", .obj [("rowCount", .num 3),
          ("rows", .arr [.obj []])])])
        = .ok ["Found 3 results", "Showing 3 items:", "", "• Untitled", "  ID: Unknown ID", ""] ∧
      ((["Found 3 results", "Showing 3 items:", "", "• Untitled", "  ID: Unknown ID",
          ""] : List String).countP (fun l => startsWithStr "• " l)) = 1) := by
  constructor
  · intro data lines h
    rcases data with _ | b | n0 | s0 | xs | fs
    · simp [format_search_results_lines, Json.get] at h
    · simp [format_search_results_lines, Json.get] at h
    · simp [format_search_results_lines, Json.get] at h
    · simp [format_search_results_lines, Json.get] at h
    · simp [format_search_results_lines, Json.get] at h
    · simp only [format_search_results_lines,
        Json.get_eq_ok (show (Json.obj fs).isObj = true from rfl), ok_bind] at h
      rcases hresp : (Json.obj fs).getD "response" (Json.obj [])
          with _ | b | n0 | s0 | xs | gs <;> rw [hresp] at h
      · simp [Json.get] at h
      · simp [Json.get] at h
      · simp [Json.get] at h
      · simp [Json.get] at h
      · simp [Json.get] at h
      · simp only [Json.get_eq_ok (show (Json.obj gs).isObj = true from rfl), ok_bind] at h
        cases hit : pyIter ((Json.obj gs).getD "rows" (Json.arr [])) with
        | error e => rw [hit] at h; simp at h
        | ok items =>
          rw [hit] at h
          simp only [ok_bind] at h
          cases hbody : format_search_items items with
          | error e => rw [hbody] at h; simp at h
          | ok body =>
            rw [hbody] at h
            simp only [ok_bind, pure_eq_ok, Except.ok.injEq] at h
            exact ⟨pyStr ((Json.obj gs).getD "rowCount" (Json.num 0)),
              by rw [← h]; simp [List.take_succ_cons]⟩
  · exact ⟨rfl, by decide⟩

theorem search_header_counts_witness :
    ∃ n, ((["Found 3 results", "Showing 3 items:", "", "• Untitled", "  ID: Unknown ID",
        ""] : List String).take 2)
      = ["Found " ++ n ++ " results", "Showing " ++ n ++ " items:"] :=
  search_header_counts.1
    (.obj [("response", .obj [("rowCount", .num 3), ("rows", .arr [.obj []])])])
    ["Found 3 results", "Showing 3 items:", "", "• Untitled", "  ID: Unknown ID", ""] rfl

/-- C7 counterexample: an item response whose `online_media.media` list has
8 entries, none of which is a JSON object.  Online media is present (the
section and its total count are emitted), the list has 8 entries, yet zero
media lines are emitted rather than 5 — non-object entries among the first
five are skipped by the `isinstance(media, dict)` check. -/
theorem media_lines_counterexample :
    format_item_details_lines (.obj [("response", .obj [("content", .obj
        [("descriptiveNonRepeating", .obj [("online_media", .obj
          [("media", .arr (List.replicate 8 (Json.str "img")))])])])])])
      = .ok ["Item Details:", "", "Title: Untitled", "ID: Unknown", "", "",
             "Online Media:", "  Total Items: 0", "", "Additional Information:"] ∧
    ((["Item Details:", "", "Title: Untitled", "ID: Unknown", "", "",
       "Online Media:", "  Total Items: 0", "", "Additional Information:"] :
        List String).countP (fun l => startsWithStr "  - " l)) = 0 :=
  ⟨rfl, by decide⟩

/-- C7 (amended): when online media is present, `format_item_details` emits
the total media count plus at most the first 5 media entries, and exactly 5
media lines when the media list has 8 entries that are all JSON objects
(non-object entries are skipped); a concrete 8-object-entry response yields
exactly 5 "  - " lines. -/
theorem media_lines_truncation :
    (∀ ms : List Json, ((ms.take 5).filterMap media_entry_line).length ≤ 5) ∧
    (∀ (om : Json) (ms : List Json), om.getD "media" (.arr []) = .arr ms →
        online_media_lines om = .ok (["", "Online Media:",
          "  Total Items: " ++ pyStr (om.getD "mediaCount" (.num 0))] ++
          (ms.take 5).filterMap media_entry_line)) ∧
    (∀ ms : List Json, ms.length = 8 → (∀ m ∈ ms, m.isObj = true) →
        ((ms.take 5).filterMap media_entry_line).length = 5) ∧
    (format_item_details_lines (.obj [("response", .obj [("content", .obj
        [("descriptiveNonRepeating", .obj [("online_media", .obj
          [("mediaCount", .num 8), ("media", .arr (List.replicate 8
            (Json.obj [("type", .str "Images"), ("content", .str "u")])))])])])])])
        = .ok ["Item Details:", "", "Title: Untitled", "ID: Unknown", "", "",
               "Online Media:", "  Total Items: 8", "  - Images: u", "  - Images: u",
               "  - Images: u", "  - Images: u", "  - Images: u", "", "Additional Information:"] ∧
      ((["Item Details:", "", "Title: Untitled", "ID: Unknown", "", "",
         "Online Media:", "  Total Items: 8", "  - Images: u", "  - Images: u",
         "  - Images: u", "  - Images: u", "  - Images: u", "", "Additional Information:"] :
          List String).countP (fun l => startsWithStr "  - " l)) = 5) := by
  have hall : ∀ ls : List Json, (∀ m ∈ ls, m.isObj = true) →
      (ls.filterMap media_entry_line).length = ls.length := by
    intro ls
    induction ls with
    | nil => intro _; rfl
    | cons x xs ih =>
      intro hx
      have hxo : x.isObj = true := hx x (List.mem_cons_self x xs)
      simp [List.filterMap_cons, media_entry_line, hxo,
            ih (fun m hm => hx m (List.mem_cons_of_mem _ hm))]
  refine ⟨fun ms => ?_, fun om ms h => ?_, fun ms h8 hobj => ?_, rfl, by decide⟩
  · exact le_trans (List.length_filterMap_le _ _) (by simp [List.length_take])
  · unfold online_media_lines
    rw [h]
    simp [pySlice, pyIter]
  · rw [hall (ms.take 5) (fun m hm => hobj m (List.mem_of_mem_take hm))]
    simp [List.length_take, h8]

theorem media_lines_truncation_witness :
    online_media_lines (.obj [("media", .arr [])]) = .ok (["", "Online Media:",
        "  Total Items: " ++ pyStr ((Json.obj [("media", .arr [])]).getD
          "mediaCount" (.num 0))] ++
        (([] : List Json).take 5).filterMap media_entry_line) ∧
    (((List.replicate 8 (Json.obj [])).take 5).filterMap media_entry_line).length = 5 :=
  ⟨media_lines_truncation.2.1 (.obj [("media", .arr [])]) [] rfl,
   media_lines_truncation.2.2.1 (List.replicate 8 (Json.obj [])) (by simp)
     (fun m hm => by rw [List.eq_of_mem_replicate hm]; rfl)⟩

/-- C8: when free-text fields are present (`freetext` is a truthy dict),
a successful `format_item_details` emits the "Additional Information:"
block; each free-text field contributes only its first 3 entries, and every
emitted entry is rendered as "label: content" when the label of the entry is
truthy and as bare content otherwise (non-dict entries are skipped). -/
theorem freetext_section :
    (∀ (data : Json) (lines : List String),
        format_item_details_lines data = .ok lines →
        ((((data.getD "response" (.obj [])).getD "content" (.obj [])).getD
            "freetext" (.obj [])).truthy = true ∧
         (((data.getD "response" (.obj [])).getD "content" (.obj [])).getD
            "freetext" (.obj [])).isObj = true) →
        "Additional Information:" ∈ lines) ∧
    (∀ (key : String) (values : Json),
        freetext_field_lines key values = [] ∨
        ∃ vs, values = Json.arr vs ∧ freetext_field_lines key values
          = ("  " ++ key ++ ":") :: (vs.take 3).filterMap freetext_entry_line) ∧
    (∀ vs : List Json, ((vs.take 3).filterMap freetext_entry_line).length ≤ 3) ∧
    (∀ (v : Json) (l : String), freetext_entry_line v = some l →
        v.isObj = true ∧
        (if (v.getD "label" (.str "")).truthy = true then
          l = "    " ++ pyStr (v.getD "label" (.str "")) ++ ": " ++
              pyStr (v.getD "content" (.str ""))
        else l = "    " ++ pyStr (v.getD "content" (.str "")))) := by
  refine ⟨fun data lines h hft => ?_, fun key values => ?_, fun vs => ?_, fun v l h => ?_⟩
  · rcases data with _ | b | n0 | s0 | xs | fs
    · simp [format_item_details_lines, Json.get] at h
    · simp [format_item_details_lines, Json.get] at h
    · simp [format_item_details_lines, Json.get] at h
    · simp [format_item_details_lines, Json.get] at h
    · simp [format_item_details_lines, Json.get] at h
    · simp only [format_item_details_lines,
        Json.get_eq_ok (show (Json.obj fs).isObj = true from rfl), ok_bind] at h
      rcases hresp : (Json.obj fs).getD "response" (Json.obj [])
          with _ | b | n0 | s0 | xs | gs <;> rw [hresp] at h hft
      · simp [Json.get] at h
      · simp [Json.get] at h
      · simp [Json.get] at h
      · simp [Json.get] at h
      · simp [Json.get] at h
      · simp only [Json.get_eq_ok (show (Json.obj gs).isObj = true from rfl), ok_bind] at h
        have hco : ((Json.obj gs).getD "content" (Json.obj [])).isObj = true := by
          clear h
          rcases hgd : (Json.obj gs).getD "content" (Json.obj [])
              with _ | b | n0 | s0 | xs | hs <;> rw [hgd] at hft
          · simp [Json.getD, Json.truthy] at hft
          · simp [Json.getD, Json.truthy] at hft
          · simp [Json.getD, Json.truthy] at hft
          · simp [Json.getD, Json.truthy] at hft
          · simp [Json.getD, Json.truthy] at hft
          · rfl
        obtain ⟨fs2, hfe⟩ : ∃ fs2, ((Json.obj gs).getD "content" (Json.obj [])).getD
            "freetext" (Json.obj []) = Json.obj fs2 := by
          clear h
          rcases hfe : ((Json.obj gs).getD "content" (Json.obj [])).getD "freetext"
              (Json.obj []) with _ | b | n0 | s0 | xs | fs2 <;> rw [hfe] at hft
          · simp [Json.isObj] at hft
          · simp [Json.isObj] at hft
          · simp [Json.isObj] at hft
          · simp [Json.isObj] at hft
          · simp [Json.isObj] at hft
          · exact ⟨fs2, rfl⟩
        rw [hco, hfe] at h
        simp only [eq_self_iff_true, if_true] at h
        split at h
        · split at h
          · obtain ⟨y, hy, h2⟩ := bind_eq_ok h
            simp only [ok_bind, pure_eq_ok, Except.ok.injEq] at h2
            rw [← h2]
            simp
          · simp only [ok_bind, pure_eq_ok, Except.ok.injEq] at h
            rw [← h]
            simp
        · simp only [ok_bind, pure_eq_ok, Except.ok.injEq] at h
          rw [← h]
          simp
  · rcases values with _ | b | n0 | s0 | vs | gs
    · exact Or.inl rfl
    · exact Or.inl rfl
    · exact Or.inl rfl
    · exact Or.inl rfl
    · cases hvs : vs.isEmpty with
      | true => exact Or.inl (by simp [freetext_field_lines, hvs])
      | false => exact Or.inr ⟨vs, rfl, by simp [freetext_field_lines, hvs]⟩
    · exact Or.inl rfl
  · exact le_trans (List.length_filterMap_le _ _) (by simp [List.length_take])
  · cases hv : v.isObj with
    | false => simp [freetext_entry_line, hv] at h
    | true =>
      refine ⟨rfl, ?_⟩
      rw [freetext_entry_line, hv] at h
      simp only [if_true] at h
      cases hl : (v.getD "label" (.str "")).truthy with
      | false => rw [hl] at h; simp_all
      | true => rw [hl] at h; simp_all

theorem freetext_section_witness :
    "Additional Information:" ∈ (["Item Details:", "", "Title: Untitled", "ID: Unknown",
        "", "", "Additional Information:", "  notes:", "    c"] : List String) ∧
    ((Json.obj [("label", Json.str "L"), ("content", Json.str "C")]).isObj = true ∧
      (if ((Json.obj [("label", Json.str "L"), ("content", Json.str "C")]).getD "label"
            (.str "")).truthy = true then
        "    L: C" = "    " ++ pyStr ((Json.obj [("label", Json.str "L"),
            ("content", Json.str "C")]).getD "label" (.str "")) ++ ": " ++
            pyStr ((Json.obj [("label", Json.str "L"),
            ("content", Json.str "C")]).getD "content" (.str ""))
      else "    L: C" = "    " ++ pyStr ((Json.obj [("label", Json.str "L"),
            ("content", Json.str "C")]).getD "content" (.str "")))) :=
  ⟨freetext_section.1 (.obj [("response", .obj [("content", .obj
      [("freetext", .obj [("notes", .arr [.obj [("content", .str "c")]])])])])])
      ["Item Details:", "", "Title: Untitled", "ID: Unknown", "", "",
       "Additional Information:", "  notes:", "    c"] rfl ⟨rfl, rfl⟩,
   freetext_section.2.2.2 (.obj [("label", Json.str "L"), ("content", Json.str "C")])
     "    L: C" rfl⟩

end Smithsonian
